import Mathlib

/-!
Verification of the scriberr-desktop audio capture core against its
natural-language specification.  Audio samples (Rust `f32`) are modelled as
rationals; the lock-free ring-buffer channels are modelled as FIFO lists
(head = next sample to pop); the stateful recorder is modelled by explicit
state passing.  Every definition is a shallow embedding of a function in
`src-tauri/src` of the repository; the file names the Rust source next to
each definition.
-/

namespace Scriberr

/-- The hard-clip step of `AudioMixer::process`
(`services/mixer.rs` line 73 and `mixer.rs` line 79):
`mixed.max(-1.0).min(1.0)`. -/
def clip (x : ℚ) : ℚ := min (max x (-1)) 1

/-- The additive mixing step of `AudioMixer::process`
(`services/mixer.rs` lines 71-73): `s_mic + s_sys`, hard-clipped. -/
def mixSample (a b : ℚ) : ℚ := clip (a + b)

/-- Modelled from the spec: the specification's `clamp(x, lo, hi)`
(spec section 4.4 step 4), written independently of the source as
`max lo (min x hi)`, for comparison with `mixSample`. -/
def clampSpec (x lo hi : ℚ) : ℚ := max lo (min x hi)

/-- Non-blocking pop from the system channel as performed in the
microphone-master drain (`services/mixer.rs` lines 65-69):
`if sys_enabled { sys_consumer.pop().unwrap_or(0.0) } else { 0.0 }`.
Returns the popped sample (silence `0` on underrun or when the system
source is disabled) together with the remaining channel contents. -/
def sysPop (sysEnabled : Bool) (sys : List ℚ) : ℚ × List ℚ :=
  if sysEnabled then
    match sys with
    | [] => (0, [])
    | x :: xs => (x, xs)
  else (0, sys)

/-- The inner microphone-master drain loop of `AudioMixer::process`
(`services/mixer.rs` lines 61-80): while the microphone channel is
non-empty, pop one microphone sample, non-blockingly pop at most one
system sample (silence on underrun / disabled), mix with hard clip and
emit.  Returns the emitted samples in order together with the remaining
system channel contents. -/
def micMasterDrain (sysEnabled : Bool) : List ℚ → List ℚ → List ℚ × List ℚ
  | [], sys => ([], sys)
  | m :: mic, sys =>
    let p := sysPop sysEnabled sys
    let r := micMasterDrain sysEnabled mic p.2
    (mixSample m p.1 :: r.1, r.2)

/-- State of the mixing worker between outer-loop iterations:
the two channels it consumes and the samples written so far. -/
structure MixState where
  sys : List ℚ
  mic : List ℚ
  out : List ℚ
  deriving DecidableEq

/-- One iteration of the outer `while running` loop of
`AudioMixer::process` (`services/mixer.rs` lines 44-108), with the
producers pushing nothing: microphone-master drain when the microphone is
enabled, system-master drain when only the system source is enabled, an
idle sleep (state unchanged) otherwise or when the master channel is
empty. -/
def outerIter (sysEnabled micEnabled : Bool) (s : MixState) : MixState :=
  if micEnabled then
    if s.mic = [] then s
    else
      let d := micMasterDrain sysEnabled s.mic s.sys
      { sys := d.2, mic := [], out := s.out ++ d.1 }
  else if sysEnabled then
    if s.sys = [] then s
    else { sys := [], mic := s.mic, out := s.out ++ s.sys.map clip }
  else s

/-- The outer `while self.running.load(..)` loop of `AudioMixer::process`
(`services/mixer.rs` line 44) driven by the finite sequence of values the
worker reads from the atomic `running` flag: a `true` observation runs one
outer iteration, the first `false` observation exits the loop.  The second
component records whether the loop exited (rather than the observation
sequence being exhausted). -/
def mixRun (sysEnabled micEnabled : Bool) : List Bool → MixState → MixState × Bool
  | [], s => (s, false)
  | true :: rest, s => mixRun sysEnabled micEnabled rest (outerIter sysEnabled micEnabled s)
  | false :: _, s => (s, true)

theorem micMasterDrain_length (sysEnabled : Bool) (mic sys : List ℚ) :
    ((micMasterDrain sysEnabled mic sys).1).length = mic.length := by
  induction mic generalizing sys with
  | nil => simp [micMasterDrain]
  | cons m t ih => simp [micMasterDrain, ih]

theorem micMasterDrain_sys_drop (mic sys : List ℚ) :
    (micMasterDrain true mic sys).2 = sys.drop mic.length := by
  induction mic generalizing sys with
  | nil => simp [micMasterDrain]
  | cons m t ih =>
    cases sys with
    | nil => simp [micMasterDrain, sysPop, ih]
    | cons x xs => simp [micMasterDrain, sysPop, ih]

theorem micMasterDrain_disabled (mic sys : List ℚ) :
    micMasterDrain false mic sys = (mic.map (fun m => mixSample m 0), sys) := by
  induction mic generalizing sys with
  | nil => simp [micMasterDrain]
  | cons m t ih => simp [micMasterDrain, sysPop, ih]

theorem micMasterDrain_sys_empty (sysEnabled : Bool) (mic : List ℚ) :
    (micMasterDrain sysEnabled mic []).1 = mic.map fun m => mixSample m 0 := by
  induction mic with
  | nil => simp [micMasterDrain]
  | cons m t ih => cases sysEnabled <;> simp [micMasterDrain, sysPop, ih]

theorem clip_of_abs_le (m : ℚ) (h : |m| ≤ 1) : clip m = m := by
  rcases abs_le.mp h with ⟨h1, h2⟩
  unfold clip
  rw [max_eq_left h1, min_eq_left h2]

theorem mixSample_zero (m : ℚ) (h : |m| ≤ 1) : mixSample m 0 = m := by
  unfold mixSample
  rw [add_zero]
  exact clip_of_abs_le m h

theorem map_mixZero_eq_self (l : List ℚ) (h : ∀ m ∈ l, |m| ≤ 1) :
    l.map (fun m => mixSample m 0) = l := by
  induction l with
  | nil => rfl
  | cons a t ih =>
    have ha : |a| ≤ 1 := h a (by simp)
    have ht : ∀ m ∈ t, |m| ≤ 1 := fun m hm => h m (by simp [hm])
    simp only [List.map_cons]
    rw [mixSample_zero a ha, ih ht]

theorem clip_eq_clampSpec (x : ℚ) : clip x = clampSpec x (-1) 1 := by
  unfold clip clampSpec
  rw [max_min_distrib_left, max_comm (-1) x,
    max_eq_right (by norm_num : (-1 : ℚ) ≤ 1)]

theorem mixRun_exits (sysEnabled micEnabled : Bool) (n : Nat) (s : MixState)
    (rest : List Bool) :
    mixRun sysEnabled micEnabled (List.replicate n true ++ false :: rest) s
      = mixRun sysEnabled micEnabled (List.replicate n true ++ [false]) s
    ∧ (mixRun sysEnabled micEnabled (List.replicate n true ++ [false]) s).2 = true := by
  induction n generalizing s with
  | zero => simp [mixRun]
  | succ k ih => simpa [List.replicate_succ, mixRun] using ih (outerIter sysEnabled micEnabled s)

theorem outerIter_drains_mic (sysEnabled : Bool) (s : MixState) :
    (outerIter sysEnabled true s).mic = [] := by
  by_cases h : s.mic = [] <;> simp [outerIter, h]

theorem outerIter_drains_sys (s : MixState) :
    (outerIter true false s).sys = [] := by
  by_cases h : s.sys = [] <;> simp [outerIter, h]

/-- Claim C1: in the microphone-master drain of the mixing worker
(`services/mixer.rs` lines 52-80), every available master (microphone)
sample produces exactly one mixed output sample with no waiting on the
system channel; at most one system sample is popped per master sample (the
remaining system channel is exactly `sys.drop mic.length`); when the
system source is disabled or its channel is empty, silence `0.0` is
substituted for that tick; consequently, when only the microphone is
enabled and its samples are in the audio range `[-1, 1]`, every mixed
sample equals the microphone sample unmodified. -/
theorem c1_mic_master_opportunistic (sysEnabled : Bool) (mic sys : List ℚ) :
    ((micMasterDrain sysEnabled mic sys).1).length = mic.length
    ∧ (micMasterDrain true mic sys).2 = sys.drop mic.length
    ∧ micMasterDrain false mic sys = (mic.map (fun m => mixSample m 0), sys)
    ∧ (micMasterDrain sysEnabled mic []).1 = mic.map (fun m => mixSample m 0)
    ∧ ((∀ m ∈ mic, |m| ≤ 1) → (micMasterDrain false mic sys).1 = mic) := by
  refine ⟨micMasterDrain_length sysEnabled mic sys,
    micMasterDrain_sys_drop mic sys,
    micMasterDrain_disabled mic sys,
    micMasterDrain_sys_empty sysEnabled mic, ?_⟩
  intro h
  rw [micMasterDrain_disabled mic sys]
  exact map_mixZero_eq_self mic h

theorem c1_witness :
    (∀ m ∈ ([1, 0, -1/2] : List ℚ), |m| ≤ 1)
    ∧ (micMasterDrain false ([1, 0, -1/2] : List ℚ) [5]).1 = [1, 0, -1/2] :=
  have hb : ∀ m ∈ ([1, 0, -1/2] : List ℚ), |m| ≤ 1 := by
    intro m hm
    rw [abs_le]
    fin_cases hm <;> norm_num
  ⟨hb, (c1_mic_master_opportunistic false [1, 0, -1/2] [5]).2.2.2.2 hb⟩

/-- Claim C2: the mixing step of `AudioMixer::process`
(`services/mixer.rs` lines 71-73, `mixer.rs` lines 76-79) applied to
samples `a`, `b` with `|a| ≤ 1` and `|b| ≤ 1` produces exactly
`clamp(a + b, -1, 1)` and is commutative. -/
theorem c2_mix_commutative_clipped (a b : ℚ) (ha : |a| ≤ 1) (hb : |b| ≤ 1) :
    mixSample a b = clampSpec (a + b) (-1) 1 ∧ mixSample a b = mixSample b a := by
  constructor
  · exact clip_eq_clampSpec (a + b)
  · unfold mixSample
    rw [add_comm]

theorem c2_witness :
    (|(1 : ℚ)/2| ≤ 1 ∧ |(1 : ℚ)/3| ≤ 1)
    ∧ (mixSample (1/2) (1/3) = clampSpec ((1 : ℚ)/2 + 1/3) (-1) 1
       ∧ mixSample (1/2) (1/3) = mixSample (1/3) (1/2)) :=
  have h2 : |(1 : ℚ)/2| ≤ 1 := by rw [abs_le]; constructor <;> norm_num
  have h3 : |(1 : ℚ)/3| ≤ 1 := by rw [abs_le]; constructor <;> norm_num
  ⟨⟨h2, h3⟩, c2_mix_commutative_clipped (1/2) (1/3) h2 h3⟩

/-- Claim C10: for every combination of the enabled-source flags, once the
`running` flag is observed cleared and the producers push no further
samples, the worker loop of `AudioMixer::process`
(`services/mixer.rs` lines 43-109) terminates: the run is insensitive to
any observations after the first `false` (no further steps are taken), the
loop exits at that observation, and each inner drain loop leaves the
channel it consumes empty. -/
theorem c10_process_terminates (sysEnabled micEnabled : Bool) (n : Nat)
    (s : MixState) (rest : List Bool) :
    mixRun sysEnabled micEnabled (List.replicate n true ++ false :: rest) s
      = mixRun sysEnabled micEnabled (List.replicate n true ++ [false]) s
    ∧ (mixRun sysEnabled micEnabled (List.replicate n true ++ [false]) s).2 = true
    ∧ (outerIter sysEnabled true s).mic = []
    ∧ (outerIter true false s).sys = [] :=
  ⟨(mixRun_exits sysEnabled micEnabled n s rest).1,
    (mixRun_exits sysEnabled micEnabled n s rest).2,
    outerIter_drains_mic sysEnabled s,
    outerIter_drains_sys s⟩

/-- The fields of the Core Audio stream descriptor consulted by
`OutputWrapper::did_output_sample_buffer` (`recorder.rs` lines 320-366):
the format flags and the channel count. -/
structure StreamBasicDescription where
  mFormatFlags : Nat
  mChannelsPerFrame : Nat
  deriving DecidableEq

/-- The planar de-interleaving loop of `did_output_sample_buffer`
(`recorder.rs` lines 377-380): for each frame index, push `left[i]` then
`right[i]`. -/
def interleave : List ℚ → List ℚ → List ℚ
  | x :: xs, y :: ys => x :: y :: interleave xs ys
  | _, _ => []

/-- The mono duplication loop of `did_output_sample_buffer`
(`recorder.rs` lines 384-387): each sample is pushed twice. -/
def dupEach : List ℚ → List ℚ
  | [] => []
  | x :: xs => x :: x :: dupEach xs

/-- The sample-layout normalization of `OutputWrapper::did_output_sample_buffer`
(`recorder.rs` lines 356-393): with a missing descriptor the defaults are
`is_planar = false`, `channels = 2`; a planar (format-flag bit 5,
`kAudioFormatFlagIsNonInterleaved`) stereo buffer is de-interleaved
half-by-half, a mono buffer is duplicated per sample, anything else is
passed through unchanged. -/
def normalizeSamples (desc : Option StreamBasicDescription) (samples : List ℚ) : List ℚ :=
  let channels : Nat := match desc with
    | some a => a.mChannelsPerFrame
    | none => 2
  let isPlanar : Bool := match desc with
    | some a => decide (a.mFormatFlags &&& 32 ≠ 0)
    | none => false
  if isPlanar = true ∧ channels = 2 then
    let numFrames := samples.length / 2
    interleave (samples.take numFrames) ((samples.drop numFrames).take numFrames)
  else if channels = 1 then dupEach samples
  else samples

/-- A push onto a fixed-capacity `ringbuf` producer endpoint
(`HeapProducer::push`): appends when there is room, silently drops the
newest sample when full. -/
def rbPush (cap : Nat) (q : List ℚ) (x : ℚ) : List ℚ :=
  if q.length < cap then q ++ [x] else q

/-- The microphone input callback built in `AudioRecorder::start_recording`
(`recorder.rs` lines 189-197) and `AudioRecorder::switch_microphone`
(`recorder.rs` lines 102-110): when the shared `paused` flag is clear it
pushes every delivered sample into the microphone channel, when `paused`
is set it returns without pushing. -/
def micCallback (paused : Bool) (cap : Nat) (data : List ℚ) (q : List ℚ) : List ℚ :=
  if paused then q else data.foldl (rbPush cap) q

/-- The system-capture buffer delivery `OutputWrapper::did_output_sample_buffer`
(`recorder.rs` lines 368-395): when the shared `paused` flag is clear it
pushes the normalized samples into the system channel in order, when
`paused` is set it acknowledges the buffer without pushing anything. -/
def sysDeliverBuffer (paused : Bool) (cap : Nat)
    (desc : Option StreamBasicDescription) (samples : List ℚ) (q : List ℚ) : List ℚ :=
  if paused then q else (normalizeSamples desc samples).foldl (rbPush cap) q

theorem interleave_eq_join_zip (ls rs : List ℚ) :
    interleave ls rs = List.flatten ((ls.zip rs).map fun p => [p.1, p.2]) := by
  induction ls generalizing rs with
  | nil => simp [interleave]
  | cons x xs ih =>
    cases rs with
    | nil => simp [interleave]
    | cons y ys => simp [interleave, ih]

theorem dupEach_eq_join (l : List ℚ) :
    dupEach l = List.flatten (l.map fun s => [s, s]) := by
  induction l with
  | nil => rfl
  | cons x xs ih => simp [dupEach, ih]

theorem normalizeSamples_planar (flags : Nat) (hf : flags &&& 32 ≠ 0)
    (ls rs : List ℚ) (h : ls.length = rs.length) :
    normalizeSamples (some ⟨flags, 2⟩) (ls ++ rs) = interleave ls rs := by
  have hn : (ls ++ rs).length / 2 = ls.length := by
    rw [List.length_append, h]; omega
  have htake : (ls ++ rs).take ls.length = ls := List.take_left ls rs
  have hdrop : (ls ++ rs).drop ls.length = rs := List.drop_left ls rs
  have htr : rs.take ls.length = rs := by rw [h]; exact List.take_length rs
  have key : normalizeSamples (some ⟨flags, 2⟩) (ls ++ rs)
      = interleave ((ls ++ rs).take ((ls ++ rs).length / 2))
          (((ls ++ rs).drop ((ls ++ rs).length / 2)).take ((ls ++ rs).length / 2)) := by
    simp [normalizeSamples, hf]
  rw [key, hn, htake, hdrop, htr]

theorem normalizeSamples_mono (flags : Nat) (samples : List ℚ) :
    normalizeSamples (some ⟨flags, 1⟩) samples = dupEach samples := by
  simp [normalizeSamples]

theorem normalizeSamples_none (samples : List ℚ) :
    normalizeSamples none samples = samples := by
  simp [normalizeSamples]

theorem normalizeSamples_interleaved (flags : Nat) (hf : flags &&& 32 = 0)
    (samples : List ℚ) :
    normalizeSamples (some ⟨flags, 2⟩) samples = samples := by
  simp [normalizeSamples, hf]

theorem normalizeSamples_other (flags ch : Nat) (h1 : ch ≠ 1) (h2 : ch ≠ 2)
    (samples : List ℚ) :
    normalizeSamples (some ⟨flags, ch⟩) samples = samples := by
  simp [normalizeSamples, h1, h2]

/-- Claim C3: the normalization in `OutputWrapper::did_output_sample_buffer`
(`recorder.rs` lines 356-395) emits a planar stereo buffer
`[L0..L(n-1), R0..R(n-1)]` as `[L0,R0,L1,R1,...]`, emits a mono buffer
with every sample duplicated, and passes any other buffer (interleaved
stereo descriptor, other channel counts, or a missing descriptor) through
unchanged in arrival order. -/
theorem c3_normalization_layout :
    (∀ (flags : Nat) (ls rs : List ℚ), flags &&& 32 ≠ 0 → ls.length = rs.length →
        normalizeSamples (some ⟨flags, 2⟩) (ls ++ rs)
          = List.flatten ((ls.zip rs).map fun p => [p.1, p.2]))
    ∧ (∀ (flags : Nat) (samples : List ℚ),
        normalizeSamples (some ⟨flags, 1⟩) samples
          = List.flatten (samples.map fun s => [s, s]))
    ∧ (∀ samples : List ℚ, normalizeSamples none samples = samples)
    ∧ (∀ (flags : Nat) (samples : List ℚ), flags &&& 32 = 0 →
        normalizeSamples (some ⟨flags, 2⟩) samples = samples)
    ∧ (∀ (flags ch : Nat) (samples : List ℚ), ch ≠ 1 → ch ≠ 2 →
        normalizeSamples (some ⟨flags, ch⟩) samples = samples) := by
  refine ⟨?_, ?_, normalizeSamples_none, ?_, ?_⟩
  · intro flags ls rs hf h
    rw [normalizeSamples_planar flags hf ls rs h, interleave_eq_join_zip]
  · intro flags samples
    rw [normalizeSamples_mono, dupEach_eq_join]
  · intro flags samples hf
    exact normalizeSamples_interleaved flags hf samples
  · intro flags ch samples h1 h2
    exact normalizeSamples_other flags ch h1 h2 samples

theorem c3_witness :
    ((32 &&& 32 ≠ 0) ∧ ([10, 11, 12, 13] : List ℚ).length = ([20, 21, 22, 23] : List ℚ).length)
    ∧ normalizeSamples (some ⟨32, 2⟩) ([10, 11, 12, 13] ++ [20, 21, 22, 23] : List ℚ)
        = [10, 20, 11, 21, 12, 22, 13, 23] := by
  refine ⟨⟨by decide, by decide⟩, ?_⟩
  rw [c3_normalization_layout.1 32 [10, 11, 12, 13] [20, 21, 22, 23] (by decide) (by decide)]
  decide

/-- Claim C9: whenever the shared `paused` flag is set, neither capture
adapter pushes a sample into its channel: the microphone callback
(`recorder.rs` lines 189-197) and the system-capture buffer delivery
(`recorder.rs` lines 368-395) leave the channel contents unchanged for
every delivered buffer, so samples arriving during a paused span never
reach the mixer. -/
theorem c9_paused_no_push (cap : Nat) (data q samples : List ℚ)
    (desc : Option StreamBasicDescription) :
    micCallback true cap data q = q
    ∧ sysDeliverBuffer true cap desc samples q = q := by
  constructor <;> simp [micCallback, sysDeliverBuffer]

/-- The mutable fields of `AudioRecorder` (`recorder.rs` lines 21-38),
each `Option`/stream handle abstracted to whether it is occupied:
`stream` (system `SCStream`), `micStream` (cpal input stream), `mixer`
(the `Arc<Mutex<Option<AudioMixer>>>` slot), the `mixer_running` and
`paused` atomics, `writer` (the shared `Option<WavWriter>`), and
`micProducer` (the re-homable microphone producer endpoint). -/
structure RecorderState where
  stream : Bool
  micStream : Bool
  mixer : Bool
  mixerRunning : Bool
  paused : Bool
  writer : Bool
  micProducer : Bool
  deriving DecidableEq

/-- The freshly constructed recorder, `AudioRecorder::new`
(`recorder.rs` lines 43-53). -/
def initRecorder : RecorderState :=
  { stream := false, micStream := false, mixer := false, mixerRunning := false,
    paused := false, writer := false, micProducer := false }

/-- A recorder with a fully active session (writer open, mixer worker
running, both capture streams attached). -/
def activeRecorder : RecorderState :=
  { stream := true, micStream := true, mixer := true, mixerRunning := true,
    paused := false, writer := true, micProducer := true }

/-- `AudioRecorder::stop_recording` (`recorder.rs` lines 249-283),
parameterized by whether `WavWriter::finalize` succeeds.  Returns the
state after the call, the number of `finalize` invocations the call
performed, and the returned error if any.  Mirrors the source order: the
mic stream is dropped, the system stream is stopped and dropped, the
worker flag is cleared, the writer is taken out of its `Option` and
finalized when present; the `?` on a failing finalize returns before the
mixer slot is cleared. -/
def stopRecording (finalizeOk : Bool) (s : RecorderState) :
    RecorderState × Nat × Option String :=
  let s1 : RecorderState :=
    { s with micStream := false, stream := false, mixerRunning := false }
  if s.writer then
    if finalizeOk then
      ({ s1 with writer := false, mixer := false }, 1, none)
    else
      ({ s1 with writer := false }, 1, some "Failed to finalize WAV")
  else
    ({ s1 with mixer := false }, 0, none)

/-- `AudioRecorder::pause_recording` (`recorder.rs` lines 55-57): a store
to the shared `paused` atomic; touches nothing else and performs no
`finalize`. -/
def pauseRecording (s : RecorderState) : RecorderState × Nat :=
  ({ s with paused := true }, 0)

/-- `AudioRecorder::resume_recording` (`recorder.rs` lines 59-61). -/
def resumeRecording (s : RecorderState) : RecorderState × Nat :=
  ({ s with paused := false }, 0)

/-- `AudioRecorder::switch_microphone` (`recorder.rs` lines 77-121),
parameterized by the platform outcomes: whether device enumeration
succeeds, whether a device of the requested name exists, and whether the
new stream builds and plays.  Mirrors the source order: the current mic
stream is dropped first (line 79), then the device is looked up, then the
producer endpoint is fetched, then the new stream is built, played and
stored.  Performs no `finalize`. -/
def switchMicrophone (devicesOk deviceFound buildOk playOk : Bool)
    (s : RecorderState) : RecorderState × Nat × Option String :=
  let s1 : RecorderState := { s with micStream := false }
  if devicesOk = false then (s1, 0, some "input devices error")
  else if deviceFound = false then (s1, 0, some "Device not found")
  else if s.micProducer = false then (s1, 0, some "Mixer not initialized")
  else if buildOk = false then (s1, 0, some "Failed to build mic stream")
  else if playOk = false then (s1, 0, some "Failed to play mic stream")
  else ({ s1 with micStream := true }, 0, none)

/-- The platform outcomes `AudioRecorder::start_recording` depends on:
whether the WAV writer can be created, whether microphone device
enumeration succeeds, whether the requested microphone exists and its
stream builds and plays, whether a window owned by the target pid exists,
whether `start_capture` succeeds, and whether a `finalize` performed by
the leading internal `stop_recording` succeeds. -/
structure StartEnv where
  writerOk : Bool
  devicesOk : Bool
  micFound : Bool
  micBuildOk : Bool
  micPlayOk : Bool
  windowFound : Bool
  captureOk : Bool
  finalizeOk : Bool
  deriving DecidableEq

/-- The microphone setup portion of `AudioRecorder::start_recording`
(`recorder.rs` lines 163-216): when the microphone is enabled, the
producer endpoint is stored, the device is looked up ("Default" uses the
default input device, any other name searches the enumerated devices — a
failing enumeration propagates as an error), and a device that is found,
builds and plays installs the mic stream; a missing device or a failing
build/play is only logged. -/
def micSetupStep (env : StartEnv) (micDeviceName : Option String)
    (micEnabled : Bool) (s3 : RecorderState) : RecorderState × Option String :=
  if micEnabled then
    match micDeviceName with
    | some nm =>
      let s4 : RecorderState := { s3 with micProducer := true }
      if nm = "Default" then
        if env.micFound && env.micBuildOk && env.micPlayOk then
          ({ s4 with micStream := true }, none)
        else (s4, none)
      else
        if env.devicesOk = false then (s4, some "input devices error")
        else if env.micFound && env.micBuildOk && env.micPlayOk then
          ({ s4 with micStream := true }, none)
        else (s4, none)
    | none => (s3, none)
  else (s3, none)

/-- `AudioRecorder::start_recording` (`recorder.rs` lines 123-247).
Mirrors the source order: the leading `self.stop_recording()?`, clearing
`paused`, creating the WAV writer, computing the enabled flags
(`sys_enabled = pid != -1`, `mic_enabled` iff a device name other than
"None" was passed), installing the mixer and spawning its worker, the
microphone setup whose failures are only logged (except a failing device
enumeration for a named device, which propagates), and the system-capture
setup whose missing target window or failing `start_capture` propagate
with `?` and no rollback. -/
def startRecording (env : StartEnv) (pid : Int) (micDeviceName : Option String)
    (s : RecorderState) : RecorderState × Nat × Option String :=
  let r := stopRecording env.finalizeOk s
  match r.2.2 with
  | some e => (r.1, r.2.1, some e)
  | none =>
    let s1 : RecorderState := { r.1 with paused := false }
    if env.writerOk = false then
      (s1, r.2.1, some "Failed to create WAV writer")
    else
      let s2 : RecorderState := { s1 with writer := true }
      let sysEnabled : Bool := decide (pid ≠ -1)
      let micEnabled : Bool := match micDeviceName with
        | some nm => decide (nm ≠ "None")
        | none => false
      let s3 : RecorderState := { s2 with mixer := true, mixerRunning := true }
      let micSetup : RecorderState × Option String :=
        micSetupStep env micDeviceName micEnabled s3
      match micSetup.2 with
      | some e => (micSetup.1, r.2.1, some e)
      | none =>
        if sysEnabled then
          if env.windowFound = false then
            (micSetup.1, r.2.1, some "No window found for target app")
          else if env.captureOk = false then
            (micSetup.1, r.2.1, some "Failed to start capture")
          else ({ micSetup.1 with stream := true }, r.2.1, none)
        else (micSetup.1, r.2.1, none)

theorem stopRecording_ok_no_error (s : RecorderState) :
    (stopRecording true s).2.2 = none := by
  cases hw : s.writer <;> simp [stopRecording, hw]

theorem switchMicrophone_no_finalize (devicesOk deviceFound buildOk playOk : Bool)
    (s : RecorderState) :
    (switchMicrophone devicesOk deviceFound buildOk playOk s).2.1 = 0
    ∧ (switchMicrophone devicesOk deviceFound buildOk playOk s).1.writer = s.writer := by
  cases devicesOk <;> cases deviceFound <;> cases buildOk <;> cases playOk <;>
    cases hm : s.micProducer <;> simp [switchMicrophone, hm]

theorem micSetupStep_fields (env : StartEnv) (nm : Option String)
    (micEnabled : Bool) (s : RecorderState) :
    (micSetupStep env nm micEnabled s).1.writer = s.writer
    ∧ (micSetupStep env nm micEnabled s).1.mixer = s.mixer
    ∧ (micSetupStep env nm micEnabled s).1.mixerRunning = s.mixerRunning
    ∧ (micSetupStep env nm micEnabled s).1.stream = s.stream := by
  unfold micSetupStep
  cases micEnabled <;> cases nm <;> simp <;> split_ifs <;> simp

theorem micSetupStep_writer (env : StartEnv) (nm : Option String)
    (micEnabled : Bool) (s : RecorderState) :
    (micSetupStep env nm micEnabled s).1.writer = s.writer :=
  (micSetupStep_fields env nm micEnabled s).1

theorem micSetupStep_mixer (env : StartEnv) (nm : Option String)
    (micEnabled : Bool) (s : RecorderState) :
    (micSetupStep env nm micEnabled s).1.mixer = s.mixer :=
  (micSetupStep_fields env nm micEnabled s).2.1

theorem micSetupStep_mixerRunning (env : StartEnv) (nm : Option String)
    (micEnabled : Bool) (s : RecorderState) :
    (micSetupStep env nm micEnabled s).1.mixerRunning = s.mixerRunning :=
  (micSetupStep_fields env nm micEnabled s).2.2.1

theorem micSetupStep_no_error (env : StartEnv) (nm : Option String)
    (micEnabled : Bool) (s : RecorderState) (hd : env.devicesOk = true) :
    (micSetupStep env nm micEnabled s).2 = none := by
  unfold micSetupStep
  cases micEnabled <;> cases nm <;> simp [hd] <;> split_ifs <;> simp_all

theorem startRecording_finalize_eq (env : StartEnv) (pid : Int)
    (nm : Option String) (s : RecorderState) :
    (startRecording env pid nm s).2.1 = (stopRecording env.finalizeOk s).2.1 := by
  unfold startRecording
  cases h : (stopRecording env.finalizeOk s).2.2 <;> simp [h]
  repeat' split
  all_goals simp

/-- Claim C4: `AudioRecorder::stop_recording` (`recorder.rs` lines
271-277) invokes `finalize` exactly once per session: a stop call performs
one `finalize` exactly when the shared writer `Option` is occupied, it
always empties that `Option` (even when `finalize` fails), so any
subsequent stop performs no second `finalize`; and no other operation
(`pause_recording`, `resume_recording`, `switch_microphone`) ever
finalizes the writer, while `start_recording` finalizes only through its
leading internal `stop_recording` call. -/
theorem c4_finalize_exactly_once (ok ok2 dok df bok pok : Bool)
    (env : StartEnv) (pid : Int) (nm : Option String) (s : RecorderState) :
    (stopRecording ok s).2.1 = (if s.writer then 1 else 0)
    ∧ (stopRecording ok s).1.writer = false
    ∧ (stopRecording ok2 (stopRecording ok s).1).2.1 = 0
    ∧ (pauseRecording s).2 = 0 ∧ (pauseRecording s).1.writer = s.writer
    ∧ (resumeRecording s).2 = 0 ∧ (resumeRecording s).1.writer = s.writer
    ∧ (switchMicrophone dok df bok pok s).2.1 = 0
    ∧ (switchMicrophone dok df bok pok s).1.writer = s.writer
    ∧ (startRecording env pid nm s).2.1 = (stopRecording env.finalizeOk s).2.1 := by
  refine ⟨?_, ?_, ?_, rfl, rfl, rfl, rfl,
    (switchMicrophone_no_finalize dok df bok pok s).1,
    (switchMicrophone_no_finalize dok df bok pok s).2,
    startRecording_finalize_eq env pid nm s⟩
  · cases hw : s.writer <;> cases ok <;> simp [stopRecording, hw]
  · cases hw : s.writer <;> cases ok <;> simp [stopRecording, hw]
  · cases hw : s.writer <;> cases ok <;> cases ok2 <;> simp [stopRecording, hw]

/-- A platform environment in which everything succeeds except that no
window owned by the target pid exists. -/
def windowMissingEnv : StartEnv :=
  { writerOk := true, devicesOk := true, micFound := true, micBuildOk := true,
    micPlayOk := true, windowFound := false, captureOk := true, finalizeOk := true }

/-- Claim C5 counterexample: starting on a fresh recorder with the target
window missing (`recorder.rs` lines 219-223) returns the
target-not-found error, yet the writer created by that call is still
open, the mixer worker is still running and the already-started
microphone stream is still attached — the claimed rollback does not
happen. -/
theorem c5_counterexample :
    (startRecording windowMissingEnv 1 (some "Default") initRecorder).2.2
        = some "No window found for target app"
    ∧ (startRecording windowMissingEnv 1 (some "Default") initRecorder).1.writer = true
    ∧ (startRecording windowMissingEnv 1 (some "Default") initRecorder).1.mixerRunning = true
    ∧ (startRecording windowMissingEnv 1 (some "Default") initRecorder).1.micStream = true := by
  decide

/-- Claim C5 (amended): if `start_recording` fails because no window of
the target pid is found, it returns the "No window found for target app"
error, but performs no rollback: the `?` at `recorder.rs` line 223
returns with the newly created encoder still open, the mixing-engine
worker still running and its mixer slot still occupied; these are only
released by a later `stop_recording` (or the next start's internal
stop). -/
theorem c5_no_rollback_on_missing_target (env : StartEnv) (pid : Int)
    (nm : Option String) (s : RecorderState) (hfin : env.finalizeOk = true)
    (hw : env.writerOk = true) (hd : env.devicesOk = true)
    (hwin : env.windowFound = false) (hpid : pid ≠ -1) :
    (startRecording env pid nm s).2.2 = some "No window found for target app"
    ∧ (startRecording env pid nm s).1.writer = true
    ∧ (startRecording env pid nm s).1.mixer = true
    ∧ (startRecording env pid nm s).1.mixerRunning = true := by
  have hstop : (stopRecording env.finalizeOk s).2.2 = none := by
    rw [hfin]; exact stopRecording_ok_no_error s
  have hsys : decide (pid ≠ -1) = true := decide_eq_true hpid
  unfold startRecording
  simp only [hstop]
  simp [hw, hwin, hsys, micSetupStep_no_error, hd,
    micSetupStep_writer, micSetupStep_mixer, micSetupStep_mixerRunning]

theorem c5_witness :
    (windowMissingEnv.finalizeOk = true ∧ windowMissingEnv.writerOk = true
      ∧ windowMissingEnv.devicesOk = true ∧ windowMissingEnv.windowFound = false
      ∧ (3 : Int) ≠ -1)
    ∧ ((startRecording windowMissingEnv 3 none initRecorder).2.2
          = some "No window found for target app"
       ∧ (startRecording windowMissingEnv 3 none initRecorder).1.writer = true
       ∧ (startRecording windowMissingEnv 3 none initRecorder).1.mixer = true
       ∧ (startRecording windowMissingEnv 3 none initRecorder).1.mixerRunning = true) :=
  ⟨⟨rfl, rfl, rfl, rfl, by decide⟩,
    c5_no_rollback_on_missing_target windowMissingEnv 3 none initRecorder
      rfl rfl rfl rfl (by decide)⟩

/-- Claim C6 counterexample: stopping an active session whose `finalize`
fails surfaces the error, but the mixer slot is NOT cleared — the `?` at
`recorder.rs` line 275 returns before `*self.mixer.lock().unwrap() =
None` at line 280 runs, contradicting the claimed release of all session
resources. -/
theorem c6_counterexample :
    (stopRecording false activeRecorder).2.2 = some "Failed to finalize WAV"
    ∧ (stopRecording false activeRecorder).1.mixer = true := by
  decide

/-- Claim C6 (amended): when `finalize` fails, `stop_recording` surfaces
the error and has already torn down the mic stream, stopped the system
stream, signaled the worker to exit and taken the writer out of its
`Option`; but the mixer slot is cleared only on the success path — on
finalize failure it is left occupied. -/
theorem c6_finalize_failure_teardown (s : RecorderState) (hw : s.writer = true) :
    (stopRecording false s).2.2 = some "Failed to finalize WAV"
    ∧ (stopRecording false s).2.1 = 1
    ∧ (stopRecording false s).1.micStream = false
    ∧ (stopRecording false s).1.stream = false
    ∧ (stopRecording false s).1.mixerRunning = false
    ∧ (stopRecording false s).1.writer = false
    ∧ (stopRecording false s).1.mixer = s.mixer := by
  simp [stopRecording, hw]

theorem c6_witness :
    activeRecorder.writer = true
    ∧ ((stopRecording false activeRecorder).2.2 = some "Failed to finalize WAV"
       ∧ (stopRecording false activeRecorder).2.1 = 1
       ∧ (stopRecording false activeRecorder).1.micStream = false
       ∧ (stopRecording false activeRecorder).1.stream = false
       ∧ (stopRecording false activeRecorder).1.mixerRunning = false
       ∧ (stopRecording false activeRecorder).1.writer = false
       ∧ (stopRecording false activeRecorder).1.mixer = activeRecorder.mixer) :=
  ⟨rfl, c6_finalize_failure_teardown activeRecorder rfl⟩

/-- Claim C7 counterexample: calling `stop_recording` on the freshly
constructed recorder (no active session) returns `Ok` — not an Invalid
State error — while performing zero `finalize` invocations
(`recorder.rs` lines 249-283 have no session-presence check). -/
theorem c7_counterexample :
    (stopRecording true initRecorder).2.2 = none
    ∧ (stopRecording true initRecorder).2.1 = 0 := by
  decide

/-- Claim C7 (amended): calling stop with no active session (writer
`Option` empty) succeeds as a no-op rather than returning an Invalid
State error, and performs no file I/O: the writer is neither created,
written nor finalized by that call. -/
theorem c7_stop_without_session (finalizeOk : Bool) (s : RecorderState)
    (hw : s.writer = false) :
    (stopRecording finalizeOk s).2.2 = none
    ∧ (stopRecording finalizeOk s).2.1 = 0
    ∧ (stopRecording finalizeOk s).1.writer = false := by
  simp [stopRecording, hw]

theorem c7_witness :
    initRecorder.writer = false
    ∧ ((stopRecording true initRecorder).2.2 = none
       ∧ (stopRecording true initRecorder).2.1 = 0
       ∧ (stopRecording true initRecorder).1.writer = false) :=
  ⟨rfl, c7_stop_without_session true initRecorder rfl⟩

/-- Claim C8 counterexample: `switch_microphone` with an unknown device
name on a recorder whose mic stream is active returns the
"Device not found" error, but the previously active microphone stream has
already been dropped — `self.mic_stream = None` at `recorder.rs` line 79
runs before the device lookup — so the mic stream state is NOT unchanged
(it was `true` and is now `false`). -/
theorem c8_counterexample :
    (switchMicrophone true false true true activeRecorder).2.2 = some "Device not found"
    ∧ (switchMicrophone true false true true activeRecorder).1.micStream = false
    ∧ activeRecorder.micStream = true := by
  decide

/-- Claim C8 (amended): when the requested device name matches no input
device, `switch_microphone` fails with the "Device not found" error and
leaves the writer, system stream and mixer untouched, but the previously
active microphone stream does not remain active: it is stopped before the
lookup, so after the failed call no microphone stream is attached. -/
theorem c8_switch_device_missing (buildOk playOk : Bool) (s : RecorderState) :
    (switchMicrophone true false buildOk playOk s).2.2 = some "Device not found"
    ∧ (switchMicrophone true false buildOk playOk s).1.micStream = false
    ∧ (switchMicrophone true false buildOk playOk s).1.writer = s.writer
    ∧ (switchMicrophone true false buildOk playOk s).1.stream = s.stream
    ∧ (switchMicrophone true false buildOk playOk s).1.mixer = s.mixer := by
  simp [switchMicrophone]

end Scriberr
